import Mathlib

/-!
Verification development for the music-gen-3d repository (an in-browser
visualizer that animates a simulated neural-network forward pass).

Shallow embedding conventions:
* JavaScript numbers are modelled as exact rationals (`ℚ`); the decimal
  literals of the source (0.25, 0.6, ...) become the corresponding rationals.
* `Math.random()` is modelled as a stream `g : ℕ → ℚ` of draws together with
  an explicit counter that every definition threads through: a call consumes
  the value at the current counter and advances it by one.  Theorems that
  need the contract of `Math.random` hypothesise `0 ≤ g n < 1`.
* `Math.sin` is modelled as an abstract function `sinq : ℚ → ℚ`; theorems
  that need boundedness hypothesise `|sinq x| ≤ 1`.
* DOM / WebGL / audio calls do not touch `AppState`; where a claim talks
  about them they are recorded as an explicit event log (`JsEvent`), and
  otherwise omitted with a comment.
* JavaScript objects that gain ad-hoc fields (`{...note, features: ...}`)
  are modelled by a `Note` record with `Option`-valued optional fields.
-/

/-- A note object as produced by the generators in `3d-engine.js`.
`time` is optional because the fallback branches of `applyGenericTransform`
create note objects without a `time` property; `features`, `hidden`, `cell`
and `attention` are the ad-hoc fields added by the simulated layer
transforms. -/
structure Note where
  pitch : ℚ
  time : Option ℚ := none
  duration : ℚ
  velocity : ℚ
  features : Option (List ℚ) := none
  hidden : Option ℚ := none
  cell : Option ℚ := none
  attention : Option ℚ := none
deriving DecidableEq

/-- The dynamic type of the `data` field flowing between layers: an array of
notes, the latent object `{mu, sigma, z}` built by `applyLatentSampling`, or
the `{timestep, embedding}` object built by `applyTimeEmbedding`. -/
inductive LayerData where
  | notes (ns : List Note)
  | latent (mu sigma z : List ℚ)
  | timeEmb (timestep : ℚ) (embedding : List ℚ)
deriving DecidableEq

/-- One layer of an architecture preset (`app-state.js`).  The display-only
`formula` and `description` strings are omitted; no code reads them. -/
structure Layer where
  name : String
  type : String
  inputShape : String
  outputShape : String
  operation : String
  color : ℕ
  params : ℕ
deriving DecidableEq

structure Architecture where
  name : String
  layers : List Layer
deriving DecidableEq

/-- The record returned by `DataGenerator.processLayer`. -/
structure LayerOutput where
  layer : String
  type : String
  data : LayerData
  activation : List (List ℚ)
deriving DecidableEq

/-- Placeholder values used only as `List.getD` defaults in statements. -/
def dLayer : Layer := ⟨"", "", "", "", "", 0, 0⟩

def dNote : Note := { pitch := 0, duration := 0, velocity := 0 }

def dLayerOutput : LayerOutput := ⟨"", "", LayerData.notes [], []⟩

/-- The ambient sources of nondeterminism: the `Math.random` stream and
`Math.sin`. -/
structure RandCtx where
  g : ℕ → ℚ
  sinq : ℚ → ℚ

/-- Everything `DataGenerator` methods read from the environment: the random
stream, `Math.sin`, and the two `AppState` parameters (`temperature`,
`latentDim`) they consult. -/
structure DGen where
  g : ℕ → ℚ
  sinq : ℚ → ℚ
  temp : ℚ
  latentDim : ℕ

namespace DataGenerator

/-- `Math.max(0, Math.min(1, x))` as used in `generateActivationMap`. -/
def clamp01 (x : ℚ) : ℚ := max 0 (min 1 x)

/-- `Math.max(36, Math.min(96, pitch))` as used by the note generators. -/
def clampPitch (x : ℚ) : ℚ := max 36 (min 96 x)

/-- `DataGenerator.generateRandom`: 32 notes; note `i` draws its pitch at
counter `c + 2*i` and its velocity at `c + 2*i + 1`. -/
def generateRandom (dg : DGen) (c : ℕ) : List Note × ℕ :=
  ((List.range 32).map fun i =>
    { pitch := clampPitch ((60 : ℚ) + ((⌊dg.g (c + 2*i) * 25⌋ : ℤ) : ℚ) - 12)
      time := some ((i : ℚ) * (1/4))
      duration := 1/4
      velocity := dg.g (c + 2*i + 1) * (2/5) + 3/5 },
   c + 64)

/-- `DataGenerator.generateScale`: the C major scale up then down, no
random draws. -/
def generateScale : List Note :=
  let scale : List ℕ := [60, 62, 64, 65, 67, 69, 71, 72]
  (scale.enum.map fun p =>
    { pitch := (p.2 : ℚ), time := some ((p.1 : ℚ) * (1/4))
      duration := 1/4, velocity := 4/5 }) ++
  (scale.reverse.enum.map fun p =>
    { pitch := (p.2 : ℚ), time := some (((scale.length + p.1 : ℕ) : ℚ) * (1/4))
      duration := 1/4, velocity := 4/5 })

/-- `DataGenerator.generateChords`: four triads, no random draws. -/
def generateChords : List Note :=
  let chords : List (List ℕ) := [[60, 64, 67], [65, 69, 72], [67, 71, 74], [60, 64, 67]]
  (chords.enum.map fun p =>
    p.2.map fun pt =>
      { pitch := (pt : ℚ), time := some ((p.1 : ℚ) * 1)
        duration := 1, velocity := 3/4 }).flatten

/-- `DataGenerator.generateInput`: the `switch` on the input type string;
any unknown type falls through to `generateRandom`. -/
def generateInput (dg : DGen) (ty : String) (c : ℕ) : List Note × ℕ :=
  if ty = "random" then generateRandom dg c
  else if ty = "scale" then (generateScale, c)
  else if ty = "chord" then (generateChords, c)
  else generateRandom dg c

/-- `DataGenerator.applyConvolution`: each note gains a `features` array of
32 fresh draws. -/
def applyConvolution (dg : DGen) : List Note → ℕ → List Note × ℕ
  | [], c => ([], c)
  | nt :: ns, c =>
    let nt' := { nt with features := some ((List.range 32).map fun k => dg.g (c + k)) }
    let r := applyConvolution dg ns (c + 32)
    (nt' :: r.1, r.2)

/-- `DataGenerator.applyLSTM`: each note gains fresh `hidden` and `cell`
draws. -/
def applyLSTM (dg : DGen) : List Note → ℕ → List Note × ℕ
  | [], c => ([], c)
  | nt :: ns, c =>
    let nt' := { nt with hidden := some (dg.g c), cell := some (dg.g (c + 1)) }
    let r := applyLSTM dg ns (c + 2)
    (nt' :: r.1, r.2)

/-- `DataGenerator.applyAttention`: each note gains a fresh `attention`
draw. -/
def applyAttention (dg : DGen) : List Note → ℕ → List Note × ℕ
  | [], c => ([], c)
  | nt :: ns, c =>
    let nt' := { nt with attention := some (dg.g c) }
    let r := applyAttention dg ns (c + 1)
    (nt' :: r.1, r.2)

/-- `DataGenerator.applyLatentSampling`: ignores its input entirely and
returns `{mu, sigma, z}` built from `3 * latentDim` fresh draws. -/
def applyLatentSampling (dg : DGen) (c : ℕ) : LayerData × ℕ :=
  (LayerData.latent
    ((List.range dg.latentDim).map fun k => dg.g (c + k) * 2 - 1)
    ((List.range dg.latentDim).map fun k => dg.g (c + dg.latentDim + k))
    ((List.range dg.latentDim).map fun k => dg.g (c + 2 * dg.latentDim + k) * 2 - 1),
   c + 3 * dg.latentDim)

/-- `DataGenerator.applyTimeEmbedding`: takes no input; one draw for the
timestep and 256 for the embedding. -/
def applyTimeEmbedding (dg : DGen) (c : ℕ) : LayerData × ℕ :=
  (LayerData.timeEmb (dg.g c) ((List.range 256).map fun k => dg.g (c + 1 + k)), c + 257)

/-- The array branch of `applyGenericTransform`: per note, a pitch
perturbation draw then a velocity perturbation draw. -/
def genericMapNotes (dg : DGen) : List Note → ℕ → List Note × ℕ
  | [], c => ([], c)
  | nt :: ns, c =>
    let nt' := { nt with
      pitch := nt.pitch + (dg.g c - 1/2) * dg.temp * 2
      velocity := min 1 (max 0 (nt.velocity + (dg.g (c + 1) - 1/2) * (1/5))) }
    let r := genericMapNotes dg ns (c + 2)
    (nt' :: r.1, r.2)

/-- `DataGenerator.applyGenericTransform`.  A `{timestep, embedding}` object
always carries a (truthy) embedding array, so the `data.embedding` branch
wins; the `data.timestep` branch of the source is therefore unreachable and
has no corresponding case here.  The latent object has neither property and
falls through to the 88-note fallback. -/
def applyGenericTransform (dg : DGen) (data : LayerData) (c : ℕ) : LayerData × ℕ :=
  match data with
  | LayerData.timeEmb _ emb =>
    (LayerData.notes (emb.map fun v =>
      { pitch := v * 127, velocity := 4/5, duration := 1/2 }), c)
  | LayerData.latent _ _ _ =>
    (LayerData.notes ((List.range 88).map fun i =>
      { pitch := (i : ℚ) + 21, velocity := 1/2, duration := 1/2 }), c)
  | LayerData.notes ns =>
    let r := genericMapNotes dg ns c
    (LayerData.notes r.1, r.2)

/-- The `switch (layer.type)` inside `DataGenerator.processLayer`.  The
note-array transforms would throw in JavaScript if handed a non-array; those
cases never arise in any architecture flow and are modelled as the
identity. -/
def layerTransform (dg : DGen) (layer : Layer) (data : LayerData) (c : ℕ) : LayerData × ℕ :=
  if layer.type = "input" then (data, c)
  else if layer.type = "conv" ∨ layer.type = "deconv" then
    match data with
    | LayerData.notes ns => let r := applyConvolution dg ns c; (LayerData.notes r.1, r.2)
    | _ => (data, c)
  else if layer.type = "lstm" then
    match data with
    | LayerData.notes ns => let r := applyLSTM dg ns c; (LayerData.notes r.1, r.2)
    | _ => (data, c)
  else if layer.type = "latent" then applyLatentSampling dg c
  else if layer.type = "attention" then
    match data with
    | LayerData.notes ns => let r := applyAttention dg ns c; (LayerData.notes r.1, r.2)
    | _ => (data, c)
  else if layer.type = "time" then applyTimeEmbedding dg c
  else applyGenericTransform dg data c

/-- `DataGenerator.generateActivationMap`: a 16×16 heatmap; entry `(i, j)`
draws at counter `c + 16*i + j`. -/
def generateActivationMap (dg : DGen) (layerIndex : ℕ) (c : ℕ) : List (List ℚ) :=
  (List.range 16).map fun i =>
    (List.range 16).map fun j =>
      clamp01 (dg.g (c + 16*i + j) * (7/10) +
        (3/10) * dg.sinq (((i + j : ℕ) : ℚ) * (1/2) + (layerIndex : ℚ)))

/-- `DataGenerator.processLayer`: looks the layer up in the current
architecture, runs the type-directed transform, and attaches a freshly
generated activation map (256 draws). -/
def processLayer (dg : DGen) (arch : Architecture) (i : ℕ) (data : LayerData) (c : ℕ) :
    LayerOutput × ℕ :=
  let layer := arch.layers.getD i dLayer
  let r := layerTransform dg layer data c
  ({ layer := layer.name, type := layer.type, data := r.1
     activation := generateActivationMap dg i r.2 },
   r.2 + 256)

/-- `DataGenerator.generateOutput`: 32 notes built from fresh draws; the
`latentData` parameter is never read by the source. -/
def generateOutput (dg : DGen) (_latentData : LayerData) (c : ℕ) : List Note × ℕ :=
  ((List.range 32).map fun i =>
    { pitch := clampPitch ((60 : ℚ) + ((⌊dg.g (c + 2*i) * dg.temp * 24 - 12⌋ : ℤ) : ℚ))
      time := some ((i : ℚ) * (1/4))
      duration := 1/4
      velocity := dg.g (c + 2*i + 1) * (2/5) + 3/5 },
   c + 64)

end DataGenerator

/-- The `VAE` preset of `AppState.architectures` (`app-state.js`). -/
def vaeArch : Architecture :=
  { name := "Variational Autoencoder"
    layers :=
      [ { name := "Input Layer", type := "input", inputShape := "[T, 88]"
          outputShape := "[T, 88]", operation := "Input(piano_roll)"
          color := 0x00d4ff, params := 0 }
      , { name := "Encoder Conv1", type := "conv", inputShape := "[T, 88]"
          outputShape := "[T, 256]", operation := "Conv1D(filters=256, kernel=3)"
          color := 0x0099ff, params := 67840 }
      , { name := "Encoder Conv2", type := "conv", inputShape := "[T, 256]"
          outputShape := "[T, 512]", operation := "Conv1D(filters=512, kernel=3)"
          color := 0x0066ff, params := 393728 }
      , { name := "Latent Space (μ, σ)", type := "latent", inputShape := "[T, 512]"
          outputShape := "[128]", operation := "Dense(128) + Sampling"
          color := 0xff00ff, params := 131200 }
      , { name := "Decoder Dense", type := "dense", inputShape := "[128]"
          outputShape := "[T, 512]", operation := "Dense(T×512) + Reshape"
          color := 0xff6600, params := 131584 }
      , { name := "Decoder Conv1", type := "deconv", inputShape := "[T, 512]"
          outputShape := "[T, 256]", operation := "ConvTranspose1D(filters=256)"
          color := 0xff9900, params := 393472 }
      , { name := "Output Layer", type := "output", inputShape := "[T, 256]"
          outputShape := "[T, 88]", operation := "ConvTranspose1D(filters=88) + Sigmoid"
          color := 0x00ff88, params := 67672 } ] }

/-- The `LSTM` preset of `AppState.architectures`. -/
def lstmArch : Architecture :=
  { name := "LSTM Recurrent Network"
    layers :=
      [ { name := "Input Sequence", type := "input", inputShape := "[T, 88]"
          outputShape := "[T, 88]", operation := "Input(sequence)"
          color := 0x00d4ff, params := 0 }
      , { name := "Embedding Layer", type := "embedding", inputShape := "[T, 88]"
          outputShape := "[T, 256]", operation := "Dense(256)"
          color := 0x00aaff, params := 22784 }
      , { name := "LSTM Layer 1", type := "lstm", inputShape := "[T, 256]"
          outputShape := "[T, 256]", operation := "LSTM(units=256, return_seq=True)"
          color := 0x0066ff, params := 525312 }
      , { name := "LSTM Layer 2", type := "lstm", inputShape := "[T, 256]"
          outputShape := "[T, 256]", operation := "LSTM(units=256, return_seq=True)"
          color := 0x3366ff, params := 525312 }
      , { name := "Output Projection", type := "output", inputShape := "[T, 256]"
          outputShape := "[T, 88]", operation := "Dense(88) + Softmax"
          color := 0x00ff88, params := 22616 } ] }

/-- The `Transformer` preset of `AppState.architectures`. -/
def transformerArch : Architecture :=
  { name := "Transformer Architecture"
    layers :=
      [ { name := "Input Embedding", type := "input", inputShape := "[T, 88]"
          outputShape := "[T, 512]", operation := "Embedding(512)"
          color := 0x00d4ff, params := 45056 }
      , { name := "Positional Encoding", type := "positional", inputShape := "[T, 512]"
          outputShape := "[T, 512]", operation := "AddPosEncoding"
          color := 0x0099ff, params := 0 }
      , { name := "Multi-Head Attention", type := "attention", inputShape := "[T, 512]"
          outputShape := "[T, 512]", operation := "MultiHeadAttention(heads=8)"
          color := 0xff00ff, params := 1049600 }
      , { name := "Feed Forward Network", type := "ffn", inputShape := "[T, 512]"
          outputShape := "[T, 512]", operation := "FFN(2048→512)"
          color := 0xff6600, params := 2099200 }
      , { name := "Output Projection", type := "output", inputShape := "[T, 512]"
          outputShape := "[T, 88]", operation := "Linear(88)"
          color := 0x00ff88, params := 45144 } ] }

/-- The `Diffusion` preset of `AppState.architectures`. -/
def diffusionArch : Architecture :=
  { name := "Diffusion Model"
    layers :=
      [ { name := "Noisy Input", type := "input", inputShape := "[T, 88]"
          outputShape := "[T, 88]", operation := "AddNoise(t, β)"
          color := 0xff0000, params := 0 }
      , { name := "Time Embedding", type := "time", inputShape := "[1]"
          outputShape := "[256]", operation := "SinusoidalPosEmbed(t)"
          color := 0xff6600, params := 0 }
      , { name := "U-Net Downsampling", type := "down", inputShape := "[T, 88]"
          outputShape := "[T/2, 512]", operation := "Conv2D(512) + Downsample"
          color := 0xff9900, params := 451584 }
      , { name := "Bottleneck", type := "bottleneck", inputShape := "[T/2, 512]"
          outputShape := "[T/4, 1024]", operation := "ResBlock(1024) + Attention"
          color := 0xff00ff, params := 2099200 }
      , { name := "U-Net Upsampling", type := "up", inputShape := "[T/4, 1024]"
          outputShape := "[T/2, 512]", operation := "ConvTranspose2D(512) + Skip"
          color := 0x00d4ff, params := 2098176 }
      , { name := "Noise Prediction", type := "predict", inputShape := "[T/2, 512]"
          outputShape := "[T, 88]", operation := "Conv2D(88) + Upsample"
          color := 0x0099ff, params := 225280 }
      , { name := "Denoised Output", type := "output", inputShape := "[T, 88]"
          outputShape := "[T, 88]", operation := "x₀ = (xₜ - √(1-ᾱₜ)ε̂) / √ᾱₜ"
          color := 0x00ff88, params := 0 } ] }

/-- The mutable fields of the shared `AppState` object (`app-state.js`),
with their initial values as defaults.  `currentStep` is an integer because
`toggleAutoPlay` can set it to `-1`.  The constant `architectures` table and
the methods are modelled as top-level definitions below. -/
structure AppState where
  currentArchitecture : String := "VAE"
  inputData : Option (List Note) := none
  inputNotes : List Note := []
  layerOutputs : List LayerOutput := []
  currentStep : ℤ := 0
  totalSteps : ℕ := 0
  isAnimating : Bool := false
  isAutoPlaying : Bool := false
  animationSpeed : ℚ := 1
  temperature : ℚ := 1
  latentDim : ℕ := 128
  outputNotes : List Note := []
deriving DecidableEq

/-- `AppState.architectures`: the key-to-preset table; unknown keys yield
`undefined` (here `none`). -/
def AppState.architectures (key : String) : Option Architecture :=
  if key = "VAE" then some vaeArch
  else if key = "LSTM" then some lstmArch
  else if key = "Transformer" then some transformerArch
  else if key = "Diffusion" then some diffusionArch
  else none

/-- `AppState.getCurrentArch()`: `this.architectures[this.currentArchitecture]`. -/
def AppState.getCurrentArch (st : AppState) : Option Architecture :=
  AppState.architectures st.currentArchitecture

/-- `AppState.reset()`. -/
def AppState.reset (st : AppState) : AppState :=
  { st with currentStep := 0, layerOutputs := [], outputNotes := [], isAnimating := false }

/-- Observable calls into the console, the DOM, the 3D engine, the 2D
visualizer and the audio library: the side effects of `app.js` and
`audio-player.js` that do not land in `AppState`. -/
inductive JsEvent where
  | consoleWarn (msg : String)
  | consoleError (msg : String)
  | explain (msg : String)
  | loadingShow
  | loadingHide
  | highlight (step : ℕ)
  | layerInfoShown (step : ℕ)
  | progressShown (step total : ℕ)
  | layerListShown
  | dataFlow (a b : ℕ)
  | outputDrawn
  | toneStarted
  | partStarted
  | partStopped
  | synthReleased
  | transportStarted
  | transportStopped
deriving DecidableEq

namespace App

/-- The `DataGenerator` environment as seen from `app.js`: the random
sources plus the live `AppState` parameters. -/
def dgOf (rc : RandCtx) (st : AppState) : DGen :=
  { g := rc.g, sinq := rc.sinq, temp := st.temperature, latentDim := st.latentDim }

/-- Signed array indexing: `l[i]` for an integer index, `undefined` when out
of range (JavaScript semantics for the indices arising here). -/
def listGetI {α : Type} (l : List α) (i : ℤ) : Option α :=
  if i < 0 then none else l.get? i.toNat

/-- The `arch.layers.forEach((layer, index) => ...)` loop shared by
`processAllLayers`, `generateDataOnly` and `jumpToStep`: starting at layer
`i` with `n` layers to go, process each layer and feed its `data` field to
the next.  Returns the pushed outputs and the advanced counter. -/
def processLayersFrom (dg : DGen) (arch : Architecture) :
    ℕ → ℕ → LayerData → ℕ → List LayerOutput × ℕ
  | _, 0, _, c => ([], c)
  | i, n + 1, data, c =>
    let r := DataGenerator.processLayer dg arch i data c
    let rest := processLayersFrom dg arch (i + 1) n r.1.data r.2
    (r.1 :: rest.1, rest.2)

/-- The full loop of `processAllLayers`, from layer 0 over every layer. -/
def processAllLayersList (dg : DGen) (arch : Architecture) (input : LayerData) (c : ℕ) :
    List LayerOutput × ℕ :=
  processLayersFrom dg arch 0 arch.layers.length input c

/-- The data/counter pair fed to layer `i + j` when the chain starts at
layer `i` with `data` and counter `c` (specification device for the
chaining theorem). -/
def chainFrom (dg : DGen) (arch : Architecture) :
    ℕ → LayerData → ℕ → ℕ → LayerData × ℕ
  | _, data, c, 0 => (data, c)
  | i, data, c, j + 1 =>
    let r := DataGenerator.processLayer dg arch i data c
    chainFrom dg arch (i + 1) r.1.data r.2 j

/-- `runForwardPass` up to (but not including) `animateStep(0)`: the input
guard, the `isAnimating` guard, `AppState.reset()`, setting `isAnimating`,
and the `processAllLayers` pushes.  `none` when a guard bailed out or the
architecture lookup failed (the `catch` case). -/
def forwardPrepared (rc : RandCtx) (st : AppState) (c : ℕ) : Option (AppState × ℕ) :=
  match st.inputData with
  | none => none
  | some [] => none
  | some ns =>
    if st.isAnimating then none
    else
      match AppState.getCurrentArch st with
      | none => none
      | some arch =>
        let st1 := { AppState.reset st with isAnimating := true }
        let dg := dgOf rc st1
        let r := processAllLayersList dg arch (LayerData.notes ns) c
        some ({ st1 with layerOutputs := r.1 }, r.2)

/-- `updateStepView` (`app.js`): only its `AppState` mutation — when the
viewed step is the last cached output, `outputNotes` is regenerated.  The
render calls (`highlightLayer`, progress bar, layer list) touch no state
and are omitted.  `AppState.currentStep || 0` maps `0` to `0` and is the
identity on every other integer. -/
def updateStepView (dg : DGen) (st : AppState) (c : ℕ) : AppState × ℕ :=
  let step : ℤ := if st.currentStep = 0 then 0 else st.currentStep
  let layerData := listGetI st.layerOutputs step
  if step = (st.layerOutputs.length : ℤ) - 1 then
    match layerData with
    | some ld =>
      let r := DataGenerator.generateOutput dg ld.data c
      ({ st with outputNotes := r.1 }, r.2)
    | none => (st, c)
  else (st, c)

/-- `completeForwardPass`: clear `isAnimating`, set `currentStep` to the
last layer index, regenerate `outputNotes` from the last cached output if
there is one, then `updateStepView`.  The completion message interpolates
`AppState.outputNotes.length` (see `completionReportedCount`). -/
def completeForwardPass (dg : DGen) (arch : Architecture) (st : AppState) (c : ℕ) :
    AppState × ℕ :=
  let st2 := { st with isAnimating := false
                       currentStep := (arch.layers.length : ℤ) - 1 }
  let p :=
    match st2.layerOutputs.getLast? with
    | some fld =>
      let r := DataGenerator.generateOutput dg fld.data c
      ({ st2 with outputNotes := r.1 }, r.2)
    | none => (st2, c)
  updateStepView dg p.1 p.2

/-- The note count interpolated into the completion message
`✅ Forward pass complete! Generated N notes.`. -/
def completionReportedCount (st : AppState) : ℕ := st.outputNotes.length

/-- The render calls one `animateStep(step)` invocation performs. -/
def stepRenderEvents (outs : List LayerOutput) (total step : ℕ) : List JsEvent :=
  [JsEvent.highlight step] ++
  (match outs.get? step with
   | some _ => [JsEvent.layerInfoShown step]
   | none => []) ++
  [JsEvent.progressShown step total, JsEvent.layerListShown]

/-- The data-flow animation `animateStep` additionally triggers between two
consecutive highlighted layers (scheduling embellishment only). -/
def dataFlowEvents (outs : List LayerOutput) (total step : ℕ) : List JsEvent :=
  if step < total - 1 then
    if step < outs.length - 1 then [JsEvent.dataFlow step (step + 1)] else []
  else []

/-- `animateStep(step)` together with the whole `setTimeout` continuation
chain it schedules, run to quiescence (the model is sequential: no user
event interleaves).  Returns the visited step numbers in order, the render
events, and the final state/counter.  Each invocation re-reads the flags,
which nothing in the loop mutates. -/
def animateLoop (dg : DGen) (arch : Architecture) (st : AppState) (step c : ℕ) :
    List ℕ × List JsEvent × AppState × ℕ :=
  if _h : arch.layers.length ≤ step then
    let r := completeForwardPass dg arch st c
    ([], [], r.1, r.2)
  else
    let st1 := { st with currentStep := (step : ℤ) }
    let evs := stepRenderEvents st1.layerOutputs arch.layers.length step
    if st1.isAnimating || st1.isAutoPlaying then
      let r := animateLoop dg arch st1 (step + 1) c
      (step :: r.1, (evs ++ dataFlowEvents st1.layerOutputs arch.layers.length step) ++ r.2.1,
       r.2.2)
    else ([step], evs, st1, c)
termination_by arch.layers.length - step
decreasing_by simp_wf; omega

/-- `runForwardPass` (`app.js`), with the scheduled animation chain run to
completion.  When the architecture lookup yields `undefined`, the `try`
body throws at `arch.layers` before any push and the `catch` logs the error,
hides the loading animation and clears `isAnimating`. -/
def runForwardPass (rc : RandCtx) (st : AppState) (c : ℕ) :
    AppState × ℕ × List JsEvent :=
  match st.inputData with
  | none => (st, c, [JsEvent.explain "⚠️ Please generate input data first."])
  | some [] => (st, c, [JsEvent.explain "⚠️ Please generate input data first."])
  | some ns =>
    if st.isAnimating then (st, c, [])
    else
      match AppState.getCurrentArch st with
      | none =>
        (AppState.reset st, c,
         [JsEvent.loadingShow, JsEvent.consoleError "Error in forward pass:",
          JsEvent.loadingHide, JsEvent.explain "❌ Error during forward pass."])
      | some arch =>
        let st1 := { AppState.reset st with isAnimating := true }
        let dg := dgOf rc st1
        let r := processAllLayersList dg arch (LayerData.notes ns) c
        let st2 := { st1 with layerOutputs := r.1 }
        let a := animateLoop dg arch st2 0 r.2
        (a.2.2.1, a.2.2.2, JsEvent.loadingShow :: a.2.1)

/-- `generateDataOnly`: process every layer without animation, set the step
to 0 and refresh the view. -/
def generateDataOnly (rc : RandCtx) (st : AppState) (c : ℕ) :
    AppState × ℕ × List JsEvent :=
  match st.inputData with
  | none => (st, c, [JsEvent.explain "⚠️ Please generate input data first."])
  | some [] => (st, c, [JsEvent.explain "⚠️ Please generate input data first."])
  | some ns =>
    match AppState.getCurrentArch st with
    | none =>
      (AppState.reset st, c,
       [JsEvent.consoleError "Error generating data:",
        JsEvent.explain "❌ Error generating data."])
    | some arch =>
      let st1 := AppState.reset st
      let dg := dgOf rc st1
      let r := processAllLayersList dg arch (LayerData.notes ns) c
      let st2 := { st1 with layerOutputs := r.1, currentStep := 0 }
      let u := updateStepView dg st2 r.2
      (u.1, u.2, [])

/-- `stepForward` (`app.js`).  Render calls are omitted; the `none` branch
of the architecture lookup would throw in JavaScript and is modelled as a
no-op (it is unreachable under a valid architecture key). -/
def stepForward (rc : RandCtx) (st : AppState) (c : ℕ) : AppState × ℕ :=
  if st.isAnimating then (st, c)
  else if st.layerOutputs.length = 0 then
    let r := generateDataOnly rc st c
    (r.1, r.2.1)
  else
    match AppState.getCurrentArch st with
    | none => (st, c)
    | some arch =>
      let total := arch.layers.length
      if st.currentStep < (total : ℤ) - 1 then
        let st1 := { st with currentStep := st.currentStep + 1 }
        let layerData := listGetI st1.layerOutputs st1.currentStep
        if st1.currentStep = (total : ℤ) - 1 then
          match layerData with
          | some ld =>
            let r := DataGenerator.generateOutput (dgOf rc st1) ld.data c
            ({ st1 with outputNotes := r.1 }, r.2)
          | none => (st1, c)
        else (st1, c)
      else (st, c)

/-- `stepBack` (`app.js`).  It only ever decrements `currentStep`; its
render calls are omitted. -/
def stepBack (st : AppState) : AppState :=
  if st.isAnimating then st
  else if st.layerOutputs.length = 0 then st
  else if 0 < st.currentStep then { st with currentStep := st.currentStep - 1 }
  else st

/-- The `temp-slider` input handler: `AppState.temperature = parseFloat(v)`. -/
def tempSliderHandler (v : ℚ) (st : AppState) : AppState :=
  { st with temperature := v }

/-- The `latent-slider` input handler: `AppState.latentDim = parseInt(v)`. -/
def latentSliderHandler (v : ℕ) (st : AppState) : AppState :=
  { st with latentDim := v }

/-- The `speed-slider` input handler: `AppState.animationSpeed = parseFloat(v)`. -/
def speedSliderHandler (v : ℚ) (st : AppState) : AppState :=
  { st with animationSpeed := v }

end App

/-- The player state of `audio-player.js`: the `isPlaying` flag and whether
a `Tone.Part` is currently held (the part object itself is opaque). -/
structure AudioPlayer where
  isPlaying : Bool := false
  currentPart : Option Unit := none
deriving DecidableEq

/-- `AudioPlayer.stop()`. -/
def AudioPlayer.stop (p : AudioPlayer) : AudioPlayer × List JsEvent :=
  ({ isPlaying := false, currentPart := none },
   (match p.currentPart with
    | some _ => [JsEvent.partStopped]
    | none => []) ++ [JsEvent.transportStopped, JsEvent.synthReleased])

/-- `AudioPlayer.play(notes)`: the empty-sequence guard, else stop current
playback, schedule a new part and start the transport. -/
def AudioPlayer.play (p : AudioPlayer) (notes : Option (List Note)) :
    AudioPlayer × List JsEvent :=
  match notes with
  | none => (p, [JsEvent.consoleWarn "No notes to play"])
  | some [] => (p, [JsEvent.consoleWarn "No notes to play"])
  | some _ =>
    let s := AudioPlayer.stop p
    ({ isPlaying := true, currentPart := some () },
     JsEvent.toneStarted :: s.2 ++ [JsEvent.partStarted, JsEvent.transportStarted])

/-- The `play-btn` click handler (`app.js`): call `audioPlayer.play` only
when `AppState.outputNotes` is non-empty. -/
def App.playBtnHandler (st : AppState) (p : AudioPlayer) : AudioPlayer × List JsEvent :=
  if 0 < st.outputNotes.length then AudioPlayer.play p (some st.outputNotes)
  else (p, [JsEvent.explain "⚠️ No output generated yet. Run forward pass first."])

/-- C5: the system offers exactly four architecture presets, keyed `VAE`,
`LSTM`, `Transformer` and `Diffusion`, and `getCurrentArch()` returns
`architectures[currentArchitecture]`, the preset of the currently selected
architecture, for each of those keys. -/
theorem c5_four_architectures :
    (∀ k : String, (AppState.architectures k).isSome = true ↔
      (k = "VAE" ∨ k = "LSTM" ∨ k = "Transformer" ∨ k = "Diffusion")) ∧
    (∀ st : AppState,
      AppState.getCurrentArch st = AppState.architectures st.currentArchitecture) ∧
    AppState.architectures "VAE" = some vaeArch ∧
    AppState.architectures "LSTM" = some lstmArch ∧
    AppState.architectures "Transformer" = some transformerArch ∧
    AppState.architectures "Diffusion" = some diffusionArch := by
  refine ⟨?_, fun st => rfl, rfl, rfl, rfl, rfl⟩
  intro k
  unfold AppState.architectures
  split_ifs with h1 h2 h3 h4 <;> simp_all

/-- C8: each slider input handler sets exactly its one target field of the
shared `AppState` (temperature, latent dimension, animation speed) to the
parsed slider value and leaves every other field unchanged. -/
theorem c8_slider_handlers_frame :
    ∀ (st : AppState) (q : ℚ) (n : ℕ),
      ((App.tempSliderHandler q st).temperature = q ∧
       (App.tempSliderHandler q st).currentArchitecture = st.currentArchitecture ∧
       (App.tempSliderHandler q st).inputData = st.inputData ∧
       (App.tempSliderHandler q st).inputNotes = st.inputNotes ∧
       (App.tempSliderHandler q st).layerOutputs = st.layerOutputs ∧
       (App.tempSliderHandler q st).currentStep = st.currentStep ∧
       (App.tempSliderHandler q st).totalSteps = st.totalSteps ∧
       (App.tempSliderHandler q st).isAnimating = st.isAnimating ∧
       (App.tempSliderHandler q st).isAutoPlaying = st.isAutoPlaying ∧
       (App.tempSliderHandler q st).animationSpeed = st.animationSpeed ∧
       (App.tempSliderHandler q st).latentDim = st.latentDim ∧
       (App.tempSliderHandler q st).outputNotes = st.outputNotes) ∧
      ((App.latentSliderHandler n st).latentDim = n ∧
       (App.latentSliderHandler n st).currentArchitecture = st.currentArchitecture ∧
       (App.latentSliderHandler n st).inputData = st.inputData ∧
       (App.latentSliderHandler n st).inputNotes = st.inputNotes ∧
       (App.latentSliderHandler n st).layerOutputs = st.layerOutputs ∧
       (App.latentSliderHandler n st).currentStep = st.currentStep ∧
       (App.latentSliderHandler n st).totalSteps = st.totalSteps ∧
       (App.latentSliderHandler n st).isAnimating = st.isAnimating ∧
       (App.latentSliderHandler n st).isAutoPlaying = st.isAutoPlaying ∧
       (App.latentSliderHandler n st).animationSpeed = st.animationSpeed ∧
       (App.latentSliderHandler n st).temperature = st.temperature ∧
       (App.latentSliderHandler n st).outputNotes = st.outputNotes) ∧
      ((App.speedSliderHandler q st).animationSpeed = q ∧
       (App.speedSliderHandler q st).currentArchitecture = st.currentArchitecture ∧
       (App.speedSliderHandler q st).inputData = st.inputData ∧
       (App.speedSliderHandler q st).inputNotes = st.inputNotes ∧
       (App.speedSliderHandler q st).layerOutputs = st.layerOutputs ∧
       (App.speedSliderHandler q st).currentStep = st.currentStep ∧
       (App.speedSliderHandler q st).totalSteps = st.totalSteps ∧
       (App.speedSliderHandler q st).isAnimating = st.isAnimating ∧
       (App.speedSliderHandler q st).isAutoPlaying = st.isAutoPlaying ∧
       (App.speedSliderHandler q st).temperature = st.temperature ∧
       (App.speedSliderHandler q st).latentDim = st.latentDim ∧
       (App.speedSliderHandler q st).outputNotes = st.outputNotes) := by
  intro st q n
  and_intros <;> rfl

/-- C6: `AudioPlayer.play` called with `null` or an empty note list only
logs a console warning and returns, leaving the player state unchanged and
triggering no synthesis or transport event; the Play button handler invokes
`audioPlayer.play` exactly when `AppState.outputNotes` is non-empty. -/
theorem c6_audio_play_guard :
    ∀ (p : AudioPlayer) (st : AppState),
      AudioPlayer.play p none = (p, [JsEvent.consoleWarn "No notes to play"]) ∧
      AudioPlayer.play p (some []) = (p, [JsEvent.consoleWarn "No notes to play"]) ∧
      (st.outputNotes = [] →
        App.playBtnHandler st p =
          (p, [JsEvent.explain "⚠️ No output generated yet. Run forward pass first."])) ∧
      (st.outputNotes ≠ [] →
        App.playBtnHandler st p = AudioPlayer.play p (some st.outputNotes)) := by
  intro p st
  refine ⟨rfl, rfl, ?_, ?_⟩
  · intro h
    simp [App.playBtnHandler, h]
  · intro h
    simp [App.playBtnHandler, List.length_pos, h]

/-- Witness for C6 at concrete inputs. -/
theorem c6_audio_play_guard_witness :
    AudioPlayer.play ⟨false, none⟩ none =
      (⟨false, none⟩, [JsEvent.consoleWarn "No notes to play"]) ∧
    App.playBtnHandler {} ⟨false, none⟩ =
      (⟨false, none⟩,
       [JsEvent.explain "⚠️ No output generated yet. Run forward pass first."]) :=
  ⟨(c6_audio_play_guard ⟨false, none⟩ {}).1,
   (c6_audio_play_guard ⟨false, none⟩ {}).2.2.1 rfl⟩

/-- C7: the failure handling is single-shot and consists of a console
message only: `AudioPlayer.play` on a missing/empty sequence emits exactly
one console warning and changes nothing, and `runForwardPass`, when the
processing step throws (undefined architecture key), emits exactly one
console error plus the explanation text, leaves no partial layer outputs
behind, clears `isAnimating`, and makes no second attempt. -/
theorem c7_single_shot_failure_handling :
    ∀ (rc : RandCtx) (st : AppState) (c : ℕ) (p : AudioPlayer) (ns : List Note),
      AudioPlayer.play p none = (p, [JsEvent.consoleWarn "No notes to play"]) ∧
      AudioPlayer.play p (some []) = (p, [JsEvent.consoleWarn "No notes to play"]) ∧
      (AppState.getCurrentArch st = none → st.inputData = some ns → ns ≠ [] →
        st.isAnimating = false →
        App.runForwardPass rc st c =
          (AppState.reset st, c,
           [JsEvent.loadingShow, JsEvent.consoleError "Error in forward pass:",
            JsEvent.loadingHide, JsEvent.explain "❌ Error during forward pass."])) := by
  intro rc st c p ns
  refine ⟨rfl, rfl, ?_⟩
  intro h hin hne hanim
  rcases ns with _ | ⟨a, l⟩
  · exact absurd rfl hne
  · simp [App.runForwardPass, hin, hanim, h]

/-- Witness for C7: a state whose architecture key matches no preset. -/
theorem c7_single_shot_failure_handling_witness :
    App.runForwardPass ⟨fun _ => 0, fun _ => 0⟩
        { currentArchitecture := "GAN", inputData := some [dNote] } 0 =
      (AppState.reset { currentArchitecture := "GAN", inputData := some [dNote] }, 0,
       [JsEvent.loadingShow, JsEvent.consoleError "Error in forward pass:",
        JsEvent.loadingHide, JsEvent.explain "❌ Error during forward pass."]) :=
  (c7_single_shot_failure_handling ⟨fun _ => 0, fun _ => 0⟩
    { currentArchitecture := "GAN", inputData := some [dNote] } 0 ⟨false, none⟩
    [dNote]).2.2 rfl rfl (by simp) rfl

lemma clampPitch_bounds (x : ℚ) :
    36 ≤ DataGenerator.clampPitch x ∧ DataGenerator.clampPitch x ≤ 96 := by
  unfold DataGenerator.clampPitch
  exact ⟨le_max_left _ _, max_le (by norm_num) (min_le_left _ _)⟩

lemma generateRandom_wellformed (dg : DGen) (c : ℕ)
    (hg : ∀ n, 0 ≤ dg.g n ∧ dg.g n < 1) :
    (DataGenerator.generateRandom dg c).1 ≠ [] ∧
    (∀ nt ∈ (DataGenerator.generateRandom dg c).1,
      36 ≤ nt.pitch ∧ nt.pitch ≤ 96 ∧
      0 ≤ nt.velocity ∧ nt.velocity ≤ 1 ∧
      0 < nt.duration ∧
      nt.time.isSome = true ∧ 0 ≤ nt.time.getD 0) ∧
    List.Chain' (· ≤ ·)
      ((DataGenerator.generateRandom dg c).1.map fun nt => nt.time.getD 0) := by
  refine ⟨by simp [DataGenerator.generateRandom], ?_, ?_⟩
  · intro nt hnt
    simp only [DataGenerator.generateRandom, List.mem_map, List.mem_range] at hnt
    obtain ⟨i, _, rfl⟩ := hnt
    obtain ⟨hgl, hgu⟩ := hg (c + 2*i + 1)
    refine ⟨(clampPitch_bounds _).1, (clampPitch_bounds _).2, ?_, ?_, by norm_num,
      rfl, ?_⟩
    · show 0 ≤ dg.g (c + 2*i + 1) * (2/5) + 3/5
      nlinarith
    · show dg.g (c + 2*i + 1) * (2/5) + 3/5 ≤ 1
      nlinarith
    · show (0 : ℚ) ≤ (i : ℚ) * (1/4)
      positivity
  · simp only [DataGenerator.generateRandom, List.map_map]
    rw [List.chain'_map]
    rw [show (32 : ℕ) = 31 + 1 from rfl, List.chain'_range_succ]
    intro m hm
    show ((m : ℚ)) * (1/4) ≤ (((m + 1 : ℕ)) : ℚ) * (1/4)
    push_cast
    linarith

/-- C9: for every input type string (`random`, `scale`, `chord`, or any
other value, which falls back to `random`), `DataGenerator.generateInput`
returns a non-empty list of notes whose pitches lie in `[36, 96]`,
velocities in `[0, 1]`, durations are positive, start times are present and
non-negative, and start times are non-decreasing along the list. -/
theorem c9_generateInput_wellformed (dg : DGen) (ty : String) (c : ℕ)
    (hg : ∀ n, 0 ≤ dg.g n ∧ dg.g n < 1) :
    (DataGenerator.generateInput dg ty c).1 ≠ [] ∧
    (∀ nt ∈ (DataGenerator.generateInput dg ty c).1,
      36 ≤ nt.pitch ∧ nt.pitch ≤ 96 ∧
      0 ≤ nt.velocity ∧ nt.velocity ≤ 1 ∧
      0 < nt.duration ∧
      nt.time.isSome = true ∧ 0 ≤ nt.time.getD 0) ∧
    List.Chain' (· ≤ ·)
      ((DataGenerator.generateInput dg ty c).1.map fun nt => nt.time.getD 0) := by
  unfold DataGenerator.generateInput
  split_ifs with h1 h2 h3
  · exact generateRandom_wellformed dg c hg
  · refine ⟨by simp [DataGenerator.generateScale], ?_, ?_⟩
    · intro nt hnt
      simp [DataGenerator.generateScale, List.enum, List.enumFrom] at hnt
      rcases hnt with rfl|rfl|rfl|rfl|rfl|rfl|rfl|rfl|rfl|rfl|rfl|rfl|rfl|rfl|rfl|rfl <;>
        norm_num
    · simp [DataGenerator.generateScale, List.enum, List.enumFrom, List.chain'_cons]
      norm_num
  · refine ⟨by simp [DataGenerator.generateChords, List.enum, List.enumFrom], ?_, ?_⟩
    · intro nt hnt
      simp [DataGenerator.generateChords, List.enum, List.enumFrom] at hnt
      rcases hnt with rfl|rfl|rfl|rfl|rfl|rfl|rfl|rfl|rfl|rfl|rfl|rfl <;> norm_num
    · simp [DataGenerator.generateChords, List.enum, List.enumFrom, List.chain'_cons]
      norm_num
  · exact generateRandom_wellformed dg c hg

/-- Witness for C9 at a concrete stream and input type. -/
theorem c9_generateInput_wellformed_witness :
    (DataGenerator.generateInput ⟨fun _ => 1/2, fun _ => 0, 1, 128⟩ "scale" 0).1 ≠ [] ∧
    (∀ nt ∈ (DataGenerator.generateInput ⟨fun _ => 1/2, fun _ => 0, 1, 128⟩ "scale" 0).1,
      36 ≤ nt.pitch ∧ nt.pitch ≤ 96 ∧
      0 ≤ nt.velocity ∧ nt.velocity ≤ 1 ∧
      0 < nt.duration ∧
      nt.time.isSome = true ∧ 0 ≤ nt.time.getD 0) ∧
    List.Chain' (· ≤ ·)
      ((DataGenerator.generateInput ⟨fun _ => 1/2, fun _ => 0, 1, 128⟩ "scale" 0).1.map
        fun nt => nt.time.getD 0) :=
  c9_generateInput_wellformed ⟨fun _ => 1/2, fun _ => 0, 1, 128⟩ "scale" 0
    (fun _ => by norm_num)

lemma generateOutput_length (dg : DGen) (d : LayerData) (c : ℕ) :
    (DataGenerator.generateOutput dg d c).1.length = 32 := by
  simp [DataGenerator.generateOutput]

lemma updateStepView_outputNotes_length (dg : DGen) (st : AppState) (c : ℕ)
    (h : st.outputNotes.length = 32) :
    ((App.updateStepView dg st c).1).outputNotes.length = 32 := by
  simp only [App.updateStepView]
  repeat' split
  all_goals simp_all [DataGenerator.generateOutput]

/-- C10: `DataGenerator.generateOutput` always returns exactly 32 notes,
each with pitch clamped to `[36, 96]`, start time `i * 0.25`, duration
`0.25` and velocity in `[0.6, 1.0]`; its result does not depend on the
`latentData` argument; and consequently the forward-pass completion message
reports 32 generated notes whenever any layer output is cached. -/
theorem c10_generateOutput_shape (dg : DGen) (d1 d2 : LayerData) (c : ℕ)
    (arch : Architecture) (st : AppState)
    (hg : ∀ n, 0 ≤ dg.g n ∧ dg.g n < 1) :
    (DataGenerator.generateOutput dg d1 c).1.length = 32 ∧
    (∀ i, i < 32 →
      36 ≤ ((DataGenerator.generateOutput dg d1 c).1.getD i dNote).pitch ∧
      ((DataGenerator.generateOutput dg d1 c).1.getD i dNote).pitch ≤ 96 ∧
      ((DataGenerator.generateOutput dg d1 c).1.getD i dNote).time =
        some ((i : ℚ) * (1/4)) ∧
      ((DataGenerator.generateOutput dg d1 c).1.getD i dNote).duration = 1/4 ∧
      3/5 ≤ ((DataGenerator.generateOutput dg d1 c).1.getD i dNote).velocity ∧
      ((DataGenerator.generateOutput dg d1 c).1.getD i dNote).velocity ≤ 1) ∧
    DataGenerator.generateOutput dg d1 c = DataGenerator.generateOutput dg d2 c ∧
    (st.layerOutputs ≠ [] →
      App.completionReportedCount (App.completeForwardPass dg arch st c).1 = 32) := by
  refine ⟨generateOutput_length dg d1 c, ?_, rfl, ?_⟩
  · intro i hi
    have hget : (DataGenerator.generateOutput dg d1 c).1.getD i dNote =
        { pitch := DataGenerator.clampPitch
            ((60 : ℚ) + ((⌊dg.g (c + 2*i) * dg.temp * 24 - 12⌋ : ℤ) : ℚ))
          time := some ((i : ℚ) * (1/4))
          duration := 1/4
          velocity := dg.g (c + 2*i + 1) * (2/5) + 3/5 } := by
      simp [DataGenerator.generateOutput, List.getD_eq_getElem?_getD,
        List.getElem?_map, List.getElem?_range hi]
    rw [hget]
    obtain ⟨hgl, hgu⟩ := hg (c + 2*i + 1)
    refine ⟨(clampPitch_bounds _).1, (clampPitch_bounds _).2, rfl, rfl, ?_, ?_⟩
    · show 3/5 ≤ dg.g (c + 2*i + 1) * (2/5) + 3/5
      nlinarith
    · show dg.g (c + 2*i + 1) * (2/5) + 3/5 ≤ 1
      nlinarith
  · intro hne
    obtain ⟨fld, hfld⟩ : ∃ fld, st.layerOutputs.getLast? = some fld := by
      cases hh : st.layerOutputs.getLast? with
      | none => exact absurd (List.getLast?_eq_none_iff.mp hh) hne
      | some fld => exact ⟨fld, rfl⟩
    simp only [App.completeForwardPass, App.completionReportedCount, hfld]
    exact updateStepView_outputNotes_length _ _ _ (by simp [DataGenerator.generateOutput])

/-- Witness for C10 at a concrete stream, latent data and state. -/
theorem c10_generateOutput_shape_witness :
    (DataGenerator.generateOutput ⟨fun _ => 0, fun _ => 0, 1, 128⟩
      (LayerData.notes []) 0).1.length = 32 ∧
    App.completionReportedCount
      (App.completeForwardPass ⟨fun _ => 0, fun _ => 0, 1, 128⟩ vaeArch
        { layerOutputs := [dLayerOutput] } 0).1 = 32 :=
  ⟨(c10_generateOutput_shape ⟨fun _ => 0, fun _ => 0, 1, 128⟩ (LayerData.notes [])
      (LayerData.latent [] [] []) 0 vaeArch { layerOutputs := [dLayerOutput] }
      (fun _ => by norm_num)).1,
   (c10_generateOutput_shape ⟨fun _ => 0, fun _ => 0, 1, 128⟩ (LayerData.notes [])
      (LayerData.latent [] [] []) 0 vaeArch { layerOutputs := [dLayerOutput] }
      (fun _ => by norm_num)).2.2.2 (by simp)⟩

lemma stepForward_currentStep (rc : RandCtx) (st : AppState) (c : ℕ) (arch : Architecture)
    (harch : AppState.getCurrentArch st = some arch)
    (hne : st.layerOutputs ≠ [])
    (hanim : st.isAnimating = false) :
    (App.stepForward rc st c).1.currentStep =
      if st.currentStep < (arch.layers.length : ℤ) - 1 then st.currentStep + 1
      else st.currentStep := by
  have hlen : ¬(st.layerOutputs.length = 0) := by
    simpa [List.length_eq_zero] using hne
  simp only [App.stepForward, hanim, harch, hlen, Bool.false_eq_true, if_false, ite_false]
  by_cases h : st.currentStep < (arch.layers.length : ℤ) - 1
  · simp only [h, if_true, ite_true]
    split
    · split <;> rfl
    · rfl
  · simp only [h, if_false, ite_false]

lemma stepBack_currentStep (st : AppState)
    (hne : st.layerOutputs ≠ [])
    (hanim : st.isAnimating = false) :
    (App.stepBack st).currentStep =
      if 0 < st.currentStep then st.currentStep - 1 else st.currentStep := by
  have hlen : ¬(st.layerOutputs.length = 0) := by
    simpa [List.length_eq_zero] using hne
  simp only [App.stepBack, hanim, hlen, Bool.false_eq_true, if_false, ite_false]
  by_cases h : 0 < st.currentStep
  · simp only [h, if_true, ite_true]
  · simp only [h, if_false, ite_false]

/-- C2: under a valid architecture and a non-empty output cache, the step
counter stays inside `[0, layers.length - 1]` after `stepForward` and
`stepBack`; `stepForward` increments it by exactly 1 unless it is at the
last layer, `stepBack` decrements it by exactly 1 unless it is 0, and while
`isAnimating` is true both functions leave all of `AppState` unchanged. -/
theorem c2_step_counter_in_range (rc : RandCtx) (st : AppState) (c : ℕ)
    (arch : Architecture)
    (harch : AppState.getCurrentArch st = some arch)
    (h0 : 0 ≤ st.currentStep)
    (h1 : st.currentStep ≤ (arch.layers.length : ℤ) - 1)
    (hne : st.layerOutputs ≠ []) :
    (0 ≤ (App.stepForward rc st c).1.currentStep ∧
     (App.stepForward rc st c).1.currentStep ≤ (arch.layers.length : ℤ) - 1) ∧
    (0 ≤ (App.stepBack st).currentStep ∧
     (App.stepBack st).currentStep ≤ (arch.layers.length : ℤ) - 1) ∧
    (st.isAnimating = false →
      (st.currentStep < (arch.layers.length : ℤ) - 1 →
        (App.stepForward rc st c).1.currentStep = st.currentStep + 1) ∧
      (st.currentStep = (arch.layers.length : ℤ) - 1 →
        (App.stepForward rc st c).1.currentStep = st.currentStep) ∧
      (0 < st.currentStep →
        (App.stepBack st).currentStep = st.currentStep - 1) ∧
      (st.currentStep = 0 →
        (App.stepBack st).currentStep = st.currentStep)) ∧
    (st.isAnimating = true →
      App.stepForward rc st c = (st, c) ∧ App.stepBack st = st) := by
  cases hA : st.isAnimating with
  | false =>
    have hf := stepForward_currentStep rc st c arch harch hne hA
    have hb := stepBack_currentStep st hne hA
    refine ⟨?_, ?_, fun _ => ⟨?_, ?_, ?_, ?_⟩, fun hT => absurd hT (by simp [hA])⟩
    · rw [hf]; split_ifs <;> omega
    · rw [hb]; split_ifs <;> omega
    · intro hc; rw [hf, if_pos hc]
    · intro hc; rw [hf, if_neg (by omega)]
    · intro hc; rw [hb, if_pos hc]
    · intro hc; rw [hb, if_neg (by omega)]
  | true =>
    have hsf : App.stepForward rc st c = (st, c) := by simp [App.stepForward, hA]
    have hsb : App.stepBack st = st := by simp [App.stepBack, hA]
    refine ⟨?_, ?_, fun hF => absurd hF (by simp [hA]), fun _ => ⟨hsf, hsb⟩⟩
    · rw [hsf]; exact ⟨h0, h1⟩
    · rw [hsb]; exact ⟨h0, h1⟩

/-- Witness for C2 at a concrete state (VAE preset, one cached output,
counter 0). -/
theorem c2_step_counter_in_range_witness :
    (0 ≤ (App.stepForward ⟨fun _ => 0, fun _ => 0⟩
        { layerOutputs := [dLayerOutput] } 0).1.currentStep ∧
     (App.stepForward ⟨fun _ => 0, fun _ => 0⟩
        { layerOutputs := [dLayerOutput] } 0).1.currentStep ≤
       (vaeArch.layers.length : ℤ) - 1) ∧
    (0 ≤ (App.stepBack { layerOutputs := [dLayerOutput] }).currentStep ∧
     (App.stepBack { layerOutputs := [dLayerOutput] }).currentStep ≤
       (vaeArch.layers.length : ℤ) - 1) :=
  ⟨(c2_step_counter_in_range ⟨fun _ => 0, fun _ => 0⟩ { layerOutputs := [dLayerOutput] } 0
      vaeArch rfl (by norm_num) (by norm_num [vaeArch]) (by simp)).1,
   (c2_step_counter_in_range ⟨fun _ => 0, fun _ => 0⟩ { layerOutputs := [dLayerOutput] } 0
      vaeArch rfl (by norm_num) (by norm_num [vaeArch]) (by simp)).2.1⟩

/-- Counterexample to C3 as stated: the claim's justification says *every*
non-`input` layer transform draws from the random source, but the `down`
layer of the Diffusion preset (a non-`input` layer), fed the
`{timestep, embedding}` object produced by the preceding `time` layer, runs
the embedding branch of `applyGenericTransform`, which consumes no draw at
all: its transformed `data` is identical under two thoroughly different
random streams, and the counter advances by exactly the 256 draws of the
activation map. -/
theorem c3_transform_draws_counterexample :
    (DataGenerator.processLayer ⟨fun _ => 0, fun _ => 0, 1, 128⟩ diffusionArch 2
        (LayerData.timeEmb 0 [1/2]) 0).1.data =
      (DataGenerator.processLayer ⟨fun n => (n + 1 : ℚ), fun _ => 0, 1, 128⟩ diffusionArch 2
        (LayerData.timeEmb 0 [1/2]) 0).1.data ∧
    (DataGenerator.processLayer ⟨fun _ => 0, fun _ => 0, 1, 128⟩ diffusionArch 2
        (LayerData.timeEmb 0 [1/2]) 0).2 = 0 + 256 ∧
    (diffusionArch.layers.getD 2 dLayer).type = "down" := by
  exact ⟨rfl, rfl, rfl⟩

lemma activationMap_entry (dg : DGen) (i c : ℕ) :
    ((DataGenerator.generateActivationMap dg i c).getD 0 []).getD 0 0 =
      DataGenerator.clamp01 (dg.g c * (7/10) + (3/10) * dg.sinq (i : ℚ)) := by
  unfold DataGenerator.generateActivationMap
  simp [List.getD_eq_getElem?_getD, List.getElem?_map,
    List.getElem?_range (show (0:ℕ) < 16 by norm_num)]

lemma clamp01_halfshift_ne (s : ℚ) (hs : |s| ≤ 1) :
    DataGenerator.clamp01 (0 * (7/10) + (3/10) * s) ≠
      DataGenerator.clamp01 ((1/2) * (7/10) + (3/10) * s) := by
  obtain ⟨hl, hu⟩ := abs_le.mp hs
  have e1 : (0 : ℚ) * (7/10) + (3/10) * s = (3/10) * s := by ring
  unfold DataGenerator.clamp01
  rw [e1]
  intro h
  rw [min_eq_right (by linarith : (3/10) * s ≤ 1),
    min_eq_right (by linarith : (1:ℚ)/2 * (7/10) + (3/10) * s ≤ 1),
    max_eq_right (by linarith : (0:ℚ) ≤ (1:ℚ)/2 * (7/10) + (3/10) * s)] at h
  rcases le_or_lt 0 ((3/10) * s) with hc | hc
  · rw [max_eq_right hc] at h
    linarith
  · rw [max_eq_left hc.le] at h
    linarith

/-- C3 (amended): `DataGenerator.processLayer` is not a deterministic
function of `(layerIndex, inputData)`: with the random source modelled as
an extra input, for *every* architecture, layer index, input data and
counter, the all-zeros stream and the all-one-half stream produce different
layer outputs, because every returned layer output carries a freshly
generated random activation map.  (The per-layer transforms may also draw
from the source, but — contrary to the original claim — not every
non-`input` transform does; see the counterexample.) -/
theorem c3_processLayer_nondeterministic (sinq : ℚ → ℚ) (temp : ℚ) (ld : ℕ)
    (arch : Architecture) (i : ℕ) (data : LayerData) (c : ℕ)
    (hs : ∀ x, |sinq x| ≤ 1) :
    DataGenerator.processLayer ⟨fun _ => 0, sinq, temp, ld⟩ arch i data c ≠
      DataGenerator.processLayer ⟨fun _ => (1:ℚ)/2, sinq, temp, ld⟩ arch i data c := by
  intro heq
  have h00 := congrArg (fun p => ((p.1.activation).getD 0 []).getD 0 0) heq
  simp only [DataGenerator.processLayer] at h00
  rw [activationMap_entry, activationMap_entry] at h00
  exact clamp01_halfshift_ne (sinq (i : ℚ)) (hs _) h00

/-- Witness for the amended C3 at concrete inputs. -/
theorem c3_processLayer_nondeterministic_witness :
    DataGenerator.processLayer ⟨fun _ => 0, fun _ => 0, 1, 128⟩ vaeArch 0
        (LayerData.notes []) 0 ≠
      DataGenerator.processLayer ⟨fun _ => (1:ℚ)/2, fun _ => 0, 1, 128⟩ vaeArch 0
        (LayerData.notes []) 0 :=
  c3_processLayer_nondeterministic (fun _ => 0) 1 128 vaeArch 0 (LayerData.notes []) 0
    (fun _ => by norm_num)

lemma processLayersFrom_length (dg : DGen) (arch : Architecture) :
    ∀ (n i : ℕ) (data : LayerData) (c : ℕ),
      (App.processLayersFrom dg arch i n data c).1.length = n := by
  intro n
  induction n with
  | zero => intro i data c; rfl
  | succ m ih => intro i data c; simp [App.processLayersFrom, ih]

lemma chainFrom_succ (dg : DGen) (arch : Architecture) :
    ∀ (j i : ℕ) (data : LayerData) (c : ℕ),
      App.chainFrom dg arch i data c (j + 1) =
        ((DataGenerator.processLayer dg arch (i + j)
            (App.chainFrom dg arch i data c j).1
            (App.chainFrom dg arch i data c j).2).1.data,
         (DataGenerator.processLayer dg arch (i + j)
            (App.chainFrom dg arch i data c j).1
            (App.chainFrom dg arch i data c j).2).2) := by
  intro j
  induction j with
  | zero =>
    intro i data c
    simp [App.chainFrom]
  | succ m ih =>
    intro i data c
    have h1 : App.chainFrom dg arch i data c (m + 1 + 1) =
        App.chainFrom dg arch (i + 1)
          (DataGenerator.processLayer dg arch i data c).1.data
          (DataGenerator.processLayer dg arch i data c).2 (m + 1) := rfl
    have h2 : App.chainFrom dg arch i data c (m + 1) =
        App.chainFrom dg arch (i + 1)
          (DataGenerator.processLayer dg arch i data c).1.data
          (DataGenerator.processLayer dg arch i data c).2 m := rfl
    rw [h1, ih, h2, show i + 1 + m = i + (m + 1) from by omega]

lemma processLayersFrom_getD (dg : DGen) (arch : Architecture) :
    ∀ (j n i : ℕ) (data : LayerData) (c : ℕ), j < n →
      (App.processLayersFrom dg arch i n data c).1.getD j dLayerOutput =
        (DataGenerator.processLayer dg arch (i + j)
          (App.chainFrom dg arch i data c j).1
          (App.chainFrom dg arch i data c j).2).1 := by
  intro j
  induction j with
  | zero =>
    intro n i data c hn
    obtain ⟨m, rfl⟩ : ∃ m, n = m + 1 := ⟨n - 1, by omega⟩
    simp [App.processLayersFrom, App.chainFrom]
  | succ m ih =>
    intro n i data c hn
    obtain ⟨k, rfl⟩ : ∃ k, n = k + 1 := ⟨n - 1, by omega⟩
    have h1 : App.processLayersFrom dg arch i (k + 1) data c =
        ((DataGenerator.processLayer dg arch i data c).1 ::
          (App.processLayersFrom dg arch (i + 1) k
            (DataGenerator.processLayer dg arch i data c).1.data
            (DataGenerator.processLayer dg arch i data c).2).1,
         (App.processLayersFrom dg arch (i + 1) k
            (DataGenerator.processLayer dg arch i data c).1.data
            (DataGenerator.processLayer dg arch i data c).2).2) := rfl
    have h2 : App.chainFrom dg arch i data c (m + 1) =
        App.chainFrom dg arch (i + 1)
          (DataGenerator.processLayer dg arch i data c).1.data
          (DataGenerator.processLayer dg arch i data c).2 m := rfl
    rw [h1, List.getD_cons_succ, ih k (i + 1) _ _ (by omega), h2,
      show i + 1 + m = i + (m + 1) from by omega]

/-- C1: for a non-empty input and a valid current architecture, the
pre-animation stage of `runForwardPass` (via `processAllLayers`) fills
`AppState.layerOutputs` with exactly one entry per layer of the current
architecture, chained in order: entry 0 is `processLayer(0, inputData)`,
and for every `j` the `data` field of entry `j` is the input passed to
`processLayer(j + 1)`, whose result is entry `j + 1`. -/
theorem c1_forward_pass_outputs_chained (rc : RandCtx) (st : AppState) (c : ℕ)
    (ns : List Note) (arch : Architecture)
    (harch : AppState.getCurrentArch st = some arch)
    (hin : st.inputData = some ns)
    (hne : ns ≠ [])
    (hanim : st.isAnimating = false) :
    (App.forwardPrepared rc st c).map (fun p => p.1.layerOutputs) =
      some (App.processAllLayersList (App.dgOf rc st) arch (LayerData.notes ns) c).1 ∧
    (App.processAllLayersList (App.dgOf rc st) arch (LayerData.notes ns) c).1.length =
      arch.layers.length ∧
    (0 < arch.layers.length →
      (App.processAllLayersList (App.dgOf rc st) arch
        (LayerData.notes ns) c).1.getD 0 dLayerOutput =
        (DataGenerator.processLayer (App.dgOf rc st) arch 0 (LayerData.notes ns) c).1) ∧
    (∀ j, j + 1 < arch.layers.length →
      (App.processAllLayersList (App.dgOf rc st) arch
        (LayerData.notes ns) c).1.getD (j + 1) dLayerOutput =
        (DataGenerator.processLayer (App.dgOf rc st) arch (j + 1)
          ((App.processAllLayersList (App.dgOf rc st) arch
            (LayerData.notes ns) c).1.getD j dLayerOutput).data
          (App.chainFrom (App.dgOf rc st) arch 0 (LayerData.notes ns) c (j + 1)).2).1) := by
  refine ⟨?_, processLayersFrom_length _ _ _ _ _ _, ?_, ?_⟩
  · rcases ns with _ | ⟨a, l⟩
    · exact absurd rfl hne
    · simp [App.forwardPrepared, hin, hanim, harch, App.processAllLayersList,
        App.dgOf, AppState.reset]
  · intro h
    rw [App.processAllLayersList, processLayersFrom_getD _ _ 0 _ 0 _ _ h]
    simp [App.chainFrom]
  · intro j hj
    rw [App.processAllLayersList,
      processLayersFrom_getD _ _ (j + 1) _ 0 _ _ hj,
      processLayersFrom_getD _ _ j _ 0 _ _ (by omega),
      chainFrom_succ]
    simp [Nat.zero_add]

/-- Witness for C1 at a concrete state (VAE preset, a one-note input). -/
theorem c1_forward_pass_outputs_chained_witness :
    (App.processAllLayersList
      (App.dgOf ⟨fun _ => 0, fun _ => 0⟩ { inputData := some [dNote] })
      vaeArch (LayerData.notes [dNote]) 0).1.length = vaeArch.layers.length :=
  (c1_forward_pass_outputs_chained ⟨fun _ => 0, fun _ => 0⟩ { inputData := some [dNote] } 0
    [dNote] vaeArch rfl rfl (by simp) rfl).2.1

lemma updateStepView_preserves (dg : DGen) (st : AppState) (c : ℕ) :
    ((App.updateStepView dg st c).1).isAnimating = st.isAnimating ∧
    ((App.updateStepView dg st c).1).currentStep = st.currentStep := by
  simp only [App.updateStepView]
  repeat' split
  all_goals simp

lemma completeForwardPass_flags (dg : DGen) (arch : Architecture) (st : AppState) (c : ℕ) :
    ((App.completeForwardPass dg arch st c).1).isAnimating = false ∧
    ((App.completeForwardPass dg arch st c).1).currentStep =
      (arch.layers.length : ℤ) - 1 := by
  simp only [App.completeForwardPass]
  split
  · exact ⟨by rw [(updateStepView_preserves _ _ _).1],
      by rw [(updateStepView_preserves _ _ _).2]⟩
  · exact ⟨by rw [(updateStepView_preserves _ _ _).1],
      by rw [(updateStepView_preserves _ _ _).2]⟩

lemma animateLoop_spec (dg : DGen) (arch : Architecture) :
    ∀ (k step : ℕ) (st : AppState) (c : ℕ),
      arch.layers.length - step = k →
      arch.layers.length ≤ step + k →
      (st.isAnimating = true ∨ st.isAutoPlaying = true) →
      (App.animateLoop dg arch st step c).1 = List.range' step k ∧
      (App.animateLoop dg arch st step c).2.1 =
        (List.range' step k).flatMap
          (fun s => App.stepRenderEvents st.layerOutputs arch.layers.length s ++
            App.dataFlowEvents st.layerOutputs arch.layers.length s) ∧
      ((App.animateLoop dg arch st step c).2.2.1).isAnimating = false ∧
      ((App.animateLoop dg arch st step c).2.2.1).currentStep =
        (arch.layers.length : ℤ) - 1 := by
  intro k
  induction k with
  | zero =>
    intro step st c hk hk2 hflag
    have hle : arch.layers.length ≤ step := by omega
    rw [App.animateLoop, dif_pos hle]
    exact ⟨rfl, rfl, (completeForwardPass_flags dg arch st c).1,
      (completeForwardPass_flags dg arch st c).2⟩
  | succ m ih =>
    intro step st c hk hk2 hflag
    have hlt : ¬ (arch.layers.length ≤ step) := by omega
    have hb : (st.isAnimating || st.isAutoPlaying) = true := by
      rcases hflag with h | h <;> simp [h]
    obtain ⟨ih1, ih2, ih3, ih4⟩ :=
      ih (step + 1) { st with currentStep := (step : ℤ) } c (by omega) (by omega)
        (by rcases hflag with h | h; exacts [Or.inl h, Or.inr h])
    rw [App.animateLoop, dif_neg hlt]
    simp only [hb, if_true, ite_true]
    refine ⟨?_, ?_, ih3, ih4⟩
    · rw [List.range'_succ]
      exact congrArg (step :: ·) ih1
    · rw [List.range'_succ, List.flatMap_cons]
      rw [ih2]

/-- C4: while `isAnimating` or `isAutoPlaying` holds, the step animator
started at step 0 visits the steps `0, 1, ..., n-1` of the current
architecture in strictly increasing order with none skipped, at each step
driving the 3D renderer (`highlightLayer`) and the 2D visualizer
(`updateLayerInfo` when the output is cached, `animateProgress`,
`updateLayerList`); once the step reaches the layer count,
`completeForwardPass` runs, setting `isAnimating` to `false` and
`currentStep` to the last layer's index. -/
theorem c4_animator_linear_walk (dg : DGen) (arch : Architecture) (st : AppState) (c : ℕ)
    (_harch : AppState.getCurrentArch st = some arch)
    (hflag : st.isAnimating = true ∨ st.isAutoPlaying = true) :
    (App.animateLoop dg arch st 0 c).1 = List.range arch.layers.length ∧
    (App.animateLoop dg arch st 0 c).2.1 =
      (List.range arch.layers.length).flatMap
        (fun s => App.stepRenderEvents st.layerOutputs arch.layers.length s ++
          App.dataFlowEvents st.layerOutputs arch.layers.length s) ∧
    ((App.animateLoop dg arch st 0 c).2.2.1).isAnimating = false ∧
    ((App.animateLoop dg arch st 0 c).2.2.1).currentStep =
      (arch.layers.length : ℤ) - 1 := by
  have h := animateLoop_spec dg arch arch.layers.length 0 st c (by omega) (by omega) hflag
  rw [List.range_eq_range']
  exact h

/-- Witness for C4 at a concrete animating state over the VAE preset. -/
theorem c4_animator_linear_walk_witness :
    (App.animateLoop ⟨fun _ => 0, fun _ => 0, 1, 128⟩ vaeArch
      { isAnimating := true } 0 0).1 = List.range vaeArch.layers.length ∧
    ((App.animateLoop ⟨fun _ => 0, fun _ => 0, 1, 128⟩ vaeArch
      { isAnimating := true } 0 0).2.2.1).isAnimating = false :=
  ⟨(c4_animator_linear_walk ⟨fun _ => 0, fun _ => 0, 1, 128⟩ vaeArch
      { isAnimating := true } 0 rfl (Or.inl rfl)).1,
   (c4_animator_linear_walk ⟨fun _ => 0, fun _ => 0, 1, 128⟩ vaeArch
      { isAnimating := true } 0 rfl (Or.inl rfl)).2.2.1⟩
